import Mathlib

/-!
Verification development for the sga grading application (courses, assignments,
submissions, graders).  The definitions below are a shallow embedding of the
Python sources `sga/models.py`, `sga/views.py` and `sga/backend/files.py`:
pure functions become Lean functions, Django querysets become list filters over
explicit record types, nullable columns become `Option`, and Python exceptions
become `Except` / explicit error components.
-/

/- ### Python-level helpers -/

/-- Last index at which character `c` occurs in `cs` (Python str.rfind),
`none` when it does not occur. -/
def lastIdxOf (cs : List Char) (c : Char) : Option Nat :=
  ((List.range cs.length).filter (fun i => decide (cs.get? i = some c))).getLast?

/-- Model of Python os.path.splitext (posix flavour): split off the extension at
the last dot of the final path component, treating a basename consisting only of
leading dots as having no extension. -/
def splitext (p : String) : String × String :=
  let cs := p.toList
  let sepIndex : Int := match lastIdxOf cs '/' with | some i => (i : Int) | none => -1
  let dotIndex : Int := match lastIdxOf cs '.' with | some i => (i : Int) | none => -1
  if dotIndex > sepIndex then
    let base := (cs.take dotIndex.toNat).drop (sepIndex + 1).toNat
    if base.any (fun ch => decide (ch ≠ '.')) then
      (String.mk (cs.take dotIndex.toNat), String.mk (cs.drop dotIndex.toNat))
    else (p, "")
  else (p, "")

/-- Model of re.sub for a single-character pattern: every character matched by
`pat` is replaced by `repl`. -/
def reSubChars (pat : Char → Bool) (repl : Char) : List Char → List Char
  | [] => []
  | c :: cs => (if pat c then repl else c) :: reSubChars pat repl cs

/- ### sga/backend/files.py : upload path construction -/

/-- Source convert_illegal_S3_chars (sga/backend/files.py): re.sub of the
configured invalid-character pattern over the whole path.  The concrete regex
INVALID_S3_CHARACTERS_REGEX lives in sga/backend/constants.py, which is not
among the sources; following the spec it is a set of forbidden characters,
modelled here as an arbitrary character predicate `illegal`. -/
def convert_illegal_S3_chars (illegal : Char → Bool) (path : String) (replace_with : Char) : String :=
  String.mk (reSubChars illegal replace_with path.toList)

/-- The fields of the Submission instance that the two upload-path builders
read: instance.assignment.course.edx_id, instance.assignment.edx_id,
instance.assignment.name and instance.student.username. -/
structure UploadInstance where
  assignment_course_edx_id : String
  assignment_edx_id : String
  assignment_name : String
  student_username : String
  deriving Repr, DecidableEq

/-- Source student_submission_file_path (sga/backend/files.py): format the
course/student-uploads/assignment/username-assignmentname+extension key, then
sanitize the whole path. -/
def student_submission_file_path (illegal : Char → Bool) (inst : UploadInstance) (filename : String) : String :=
  let path := inst.assignment_course_edx_id ++ "/student-uploads/" ++ inst.assignment_edx_id
    ++ "/" ++ inst.student_username ++ "-" ++ inst.assignment_name ++ (splitext filename).2
  convert_illegal_S3_chars illegal path '_'

/-- Source grader_submission_file_path (sga/backend/files.py): same as the
student builder with the grader-uploads segment. -/
def grader_submission_file_path (illegal : Char → Bool) (inst : UploadInstance) (filename : String) : String :=
  let path := inst.assignment_course_edx_id ++ "/grader-uploads/" ++ inst.assignment_edx_id
    ++ "/" ++ inst.student_username ++ "-" ++ inst.assignment_name ++ (splitext filename).2
  convert_illegal_S3_chars illegal path '_'

/- ### sga/models.py : Submission -/

/-- The Submission model (sga/models.py): foreign keys as numeric ids, nullable
columns as Option, timestamps as abstract Nat instants, uploaded documents as
their storage names. -/
structure Submission where
  assignment : Nat
  student : Nat
  graded_by : Option Nat
  description : Option String
  feedback : Option String
  grade : Option Int
  submitted_at : Option Nat
  graded_at : Option Nat
  submitted : Bool
  graded : Bool
  student_document : Option String
  grader_document : Option String
  deriving Repr, DecidableEq

/-- Python truthiness of the nullable integer grade column: None and 0 are
falsy, every other integer is truthy. -/
def pyTruthyInt : Option Int → Bool
  | none => false
  | some n => decide (n ≠ 0)

/-- Source Submission.grade_display (sga/models.py): `if self.grade:` then
format grade and percent from the same raw value, else the Not Graded literal.
The format call reads self.grade twice; it is only reached when the grade is
truthy, hence the default in getD is never used. -/
def Submission.grade_display (s : Submission) : String :=
  if pyTruthyInt s.grade then
    toString (s.grade.getD 0) ++ "/100 (" ++ toString (s.grade.getD 0) ++ "%)"
  else
    "(Not Graded)"

/-- A submission record with the given grade and all other columns at their
creation defaults; used to evaluate grade_display on concrete grades. -/
def subWithGrade (g : Option Int) : Submission :=
  ⟨1, 2, none, none, none, g, none, none, false, false, none, none⟩

/- ### sga/models.py : database rows for the counter queries -/

/-- One Submission row as seen by the counter querysets: its student user id,
its assignment id, the course id of that assignment, who graded it, and the two
boolean flags. -/
structure SubRow where
  student : Nat
  assignment : Nat
  course : Nat
  graded_by : Option Nat
  submitted : Bool
  graded : Bool
  deriving Repr, DecidableEq

/-- The database state an Assignment method can reach: the assignment id and
its course id, the user ids holding a Student row in the course
(course.students), the user ids holding a Grader row (course.graders), and the
Submission table. -/
structure AssignmentState where
  assignmentId : Nat
  courseId : Nat
  courseStudents : List Nat
  courseGraders : List Nat
  submissions : List SubRow
  deriving Repr, DecidableEq

/-- Source Assignment.graded_submissions_count (sga/models.py):
self.submissions.filter(submitted=True, graded=True).count(). -/
def Assignment.graded_submissions_count (st : AssignmentState) : Nat :=
  (st.submissions.filter (fun r =>
    r.assignment == st.assignmentId && r.submitted && r.graded)).length

/-- Source Assignment.not_graded_submissions_count (sga/models.py):
self.submissions.filter(submitted=True, graded=False).count(). -/
def Assignment.not_graded_submissions_count (st : AssignmentState) : Nat :=
  (st.submissions.filter (fun r =>
    r.assignment == st.assignmentId && r.submitted && !r.graded)).length

/-- Source Assignment.not_submitted_submissions_count (sga/models.py): Python
integer arithmetic, hence the Int result: students_in_course is the Student row
count minus the Grader row count (the source comments that graders all have
student objects), and the result subtracts the two direct counters from it. -/
def Assignment.not_submitted_submissions_count (st : AssignmentState) : Int :=
  let students_in_course : Int := (st.courseStudents.length : Int) - (st.courseGraders.length : Int)
  students_in_course - (Assignment.graded_submissions_count st : Int)
    - (Assignment.not_graded_submissions_count st : Int)

/-- One Grader row (sga/models.py): its user id, course id, capacity, and the
roster of student user ids whose Student row points at this grader. -/
structure GraderRow where
  user : Nat
  course : Nat
  max_students : Int
  students : List Nat
  deriving Repr, DecidableEq

/-- Source Grader.graded_submissions_count (sga/models.py): count of Submission
rows with graded_by=self.user, assignment__course=self.course, submitted=True,
graded=True; note the filter is on who graded, not on the roster. -/
def Grader.graded_submissions_count (g : GraderRow) (db : List SubRow) : Nat :=
  (db.filter (fun r =>
    r.graded_by == some g.user && r.course == g.course && r.submitted && r.graded)).length

/-- Source Assignment.graded_submissions_count_by_grader (sga/models.py): when
called with a Grader the source resolves grader_user to grader.user, then
counts Submission rows with graded_by=grader_user, assignment=self,
submitted=True, graded=True; the roster is not consulted. -/
def Assignment.graded_submissions_count_by_grader (st : AssignmentState) (grader_user : Nat) : Nat :=
  (st.submissions.filter (fun r =>
    r.graded_by == some grader_user && r.assignment == st.assignmentId
      && r.submitted && r.graded)).length

/-- Source Assignment.not_graded_submissions_count_by_grader (sga/models.py):
student_users is the roster of the grader, and the count is over Submission
rows with student__in=student_users, assignment=self, submitted=True,
graded=False. -/
def Assignment.not_graded_submissions_count_by_grader (st : AssignmentState) (g : GraderRow) : Nat :=
  (st.submissions.filter (fun r =>
    g.students.contains r.student && r.assignment == st.assignmentId
      && r.submitted && !r.graded)).length

/- ### sga/models.py : Course membership and roles -/

/-- The Course model relation sets (sga/models.py): user ids of administrators,
of users with a Grader row, and of users with a Student row. -/
structure Course where
  edx_id : String
  administrators : List Nat
  graders : List Nat
  students : List Nat
  deriving Repr, DecidableEq

/-- Source Course.has_grader (sga/models.py): self.graders.filter(pk=user.pk)
exists. -/
def Course.has_grader (c : Course) (user : Nat) : Bool :=
  c.graders.contains user

/-- Source Course.has_admin (sga/models.py): self.administrators.filter(pk=
user.pk) exists. -/
def Course.has_admin (c : Course) (user : Nat) : Bool :=
  c.administrators.contains user

/-- Source Course.has_student (sga/models.py): membership in the students set
and not has_grader; administrators are not excluded here. -/
def Course.has_student (c : Course) (user : Nat) : Bool :=
  c.students.contains user && !(c.has_grader user)

/-- The four role outcomes of role resolution for a user and course. -/
inductive Role
  | admin
  | grader
  | student
  | noRole
  deriving Repr, DecidableEq

/-- Modelled from the spec: get_role (sga/backend/authentication.py, not among
the sources) resolves the role of a user in a course by membership lookup
against the three relation sets, admin-membership and grader-membership taking
priority over student-membership. -/
def get_role (c : Course) (user : Nat) : Role :=
  if c.has_admin user then Role.admin
  else if c.has_grader user then Role.grader
  else if c.has_student user then Role.student
  else Role.noRole

/- ### sga/models.py : CourseModel.get_or_404_check_course -/

/-- A CourseModel record as the classmethod sees it: a primary key and the
course_id foreign key column. -/
structure CourseRec where
  pk : Nat
  course_id : Nat
  deriving Repr, DecidableEq

/-- The failure outcomes of a course-scoped lookup: Http404 raised by
get_object_or_404, PermissionDenied raised by the course check, and the
MultipleObjectsReturned that Model.objects.get raises past get_object_or_404
when the kwargs match more than one row. -/
inductive LookupError
  | http404
  | permissionDenied
  | multipleObjectsReturned
  deriving Repr, DecidableEq

/-- Django get_object_or_404 over the records matching the lookup kwargs: no
match raises Http404, a unique match is returned, several kwargsMatch raise
MultipleObjectsReturned. -/
def get_object_or_404 (records : List CourseRec) (kwargsMatch : CourseRec → Bool) :
    Except LookupError CourseRec :=
  match records.filter kwargsMatch with
  | [] => Except.error LookupError.http404
  | [r] => Except.ok r
  | _ :: _ :: _ => Except.error LookupError.multipleObjectsReturned

/-- Source CourseModel.get_or_404_check_course (sga/models.py): fetch via
get_object_or_404, then raise PermissionDenied when the course_id of the
fetched object differs from the given course_id, else return the object. -/
def get_or_404_check_course (records : List CourseRec) (kwargsMatch : CourseRec → Bool)
    (course_id : Nat) : Except LookupError CourseRec :=
  match get_object_or_404 records kwargsMatch with
  | Except.error e => Except.error e
  | Except.ok obj =>
      if obj.course_id != course_id then Except.error LookupError.permissionDenied
      else Except.ok obj

/- ### sga/views.py : submission operations -/

/-- The Submission row produced by Submission.objects.get_or_create when no row
exists yet (sga/views.py): model defaults submitted=False, graded=False, every
nullable column null (sga/models.py). -/
def submission_create (assignment student : Nat) : Submission :=
  { assignment := assignment
    student := student
    graded_by := none
    description := none
    feedback := none
    grade := none
    submitted_at := none
    graded_at := none
    submitted := false
    graded := false
    student_document := none
    grader_document := none }

/-- The valid-form POST branch of view_submission_as_student (sga/views.py):
submission_form.save() writes the student-editable columns, then the view sets
submitted=True and submitted_at=utcnow and saves.  Modelled from the spec: the
form class StudentAssignmentSubmissionForm lives in sga/forms.py, not among the
sources; per the spec the student submits a document and a description, so the
form save is modelled as writing those two columns to arbitrary new values. -/
def student_submit_post (s : Submission) (doc desc : Option String) (now : Nat) : Submission :=
  { s with
    student_document := doc
    description := desc
    submitted := true
    submitted_at := some now }

/-- The valid-form POST branch of view_submission_as_staff (sga/views.py):
submission_form.save() writes the grader-editable columns, then the view sets
graded_at=utcnow, graded_by=request.user and graded=True and saves.  Modelled
from the spec: GraderAssignmentSubmissionForm (sga/forms.py) is not among the
sources; per the spec a grader attaches feedback, a grade, and a graded
document, so the form save is modelled as writing those three columns. -/
def staff_grade_post (s : Submission) (grade : Option Int) (feedback gdoc : Option String)
    (now grader_user : Nat) : Submission :=
  { s with
    grade := grade
    feedback := feedback
    grader_document := gdoc
    graded_at := some now
    graded_by := some grader_user
    graded := true }

/-- The mutation performed by the unsubmit_submission view (sga/views.py):
submission.submitted = False, submission.graded = False, save; no other column
is written. -/
def unsubmit_submission_update (s : Submission) : Submission :=
  { s with submitted := false, graded := false }

/-- Submission states reachable from creation through the three view
operations: student submit, staff grade, admin unsubmit. -/
inductive SubmissionReachable : Submission → Prop
  | created (a st : Nat) : SubmissionReachable (submission_create a st)
  | studentSubmit (s : Submission) (doc desc : Option String) (now : Nat) :
      SubmissionReachable s → SubmissionReachable (student_submit_post s doc desc now)
  | staffGrade (s : Submission) (g : Option Int) (fb gd : Option String) (now u : Nat) :
      SubmissionReachable s → SubmissionReachable (staff_grade_post s g fb gd now u)
  | adminUnsubmit (s : Submission) :
      SubmissionReachable s → SubmissionReachable (unsubmit_submission_update s)

/-- The flag/timestamp coherence property of the spec: a graded submission has
a grading timestamp and a grading user, a submitted submission has a submission
timestamp. -/
def flagsTimestampInvariant (s : Submission) : Prop :=
  (s.graded = true → s.graded_at ≠ none ∧ s.graded_by ≠ none) ∧
  (s.submitted = true → s.submitted_at ≠ none)

/- ### sga/views.py : lookup phases and the bare except clauses -/

/-- The Python exceptions that can escape the record-lookup statements inside
the try blocks of the views: the designated missing-record signal, and the
other exception classes a lookup can raise. -/
inductive PyExc
  | doesNotExist
  | multipleObjectsReturned
  | attributeError
  | valueError
  | other (msg : String)
  deriving Repr, DecidableEq

/-- The Http404 response raised by the bare except clauses. -/
inductive Http404
  | mk
  deriving Repr, DecidableEq

/-- An Assignment record as the views fetch it by edx_id. -/
structure AssignmentRec where
  edx_id : String
  deriving Repr, DecidableEq

/-- A Student record as the views fetch it by user__username. -/
structure StudentRec where
  user_username : String
  user : Nat
  deriving Repr, DecidableEq

/-- The try-block body of view_submission_as_student (sga/views.py):
Assignment.objects.get(edx_id=...) then Submission.objects.get_or_create,
each step an arbitrary fallible lookup. -/
def student_view_lookup (getAssignment : Except PyExc AssignmentRec)
    (getOrCreateSubmission : AssignmentRec → Except PyExc Submission) :
    Except PyExc (AssignmentRec × Submission) := do
  let assignment ← getAssignment
  let submission ← getOrCreateSubmission assignment
  pure (assignment, submission)

/-- The lookup phase of view_submission_as_student with its bare except clause
(sga/views.py): any exception raised inside the try block becomes raise
Http404(). -/
def view_submission_as_student_lookup (getAssignment : Except PyExc AssignmentRec)
    (getOrCreateSubmission : AssignmentRec → Except PyExc Submission) :
    Except Http404 (AssignmentRec × Submission) :=
  match student_view_lookup getAssignment getOrCreateSubmission with
  | Except.ok r => Except.ok r
  | Except.error _ => Except.error Http404.mk

/-- The try-block body of unsubmit_submission (sga/views.py): fetch the
assignment by edx_id, the student by username, then get_or_create the
submission. -/
def unsubmit_lookup (getAssignment : Except PyExc AssignmentRec)
    (getStudent : Except PyExc StudentRec)
    (getOrCreateSubmission : AssignmentRec → StudentRec → Except PyExc Submission) :
    Except PyExc Submission := do
  let assignment ← getAssignment
  let student ← getStudent
  getOrCreateSubmission assignment student

/-- The unsubmit_submission view (sga/views.py): the lookup phase under the
bare except clause, then the unsubmit mutation on the fetched submission. -/
def unsubmit_submission_view (getAssignment : Except PyExc AssignmentRec)
    (getStudent : Except PyExc StudentRec)
    (getOrCreateSubmission : AssignmentRec → StudentRec → Except PyExc Submission) :
    Except Http404 Submission :=
  match unsubmit_lookup getAssignment getStudent getOrCreateSubmission with
  | Except.ok submission => Except.ok (unsubmit_submission_update submission)
  | Except.error _ => Except.error Http404.mk

/- ### sga/backend/files.py : streaming zip generator -/

/-- A submission document as the zip generator consumes it: the storage name of
student_document and the bytes its read() returns. -/
structure SubmissionDoc where
  name : String
  content : List Nat
  deriving Repr, DecidableEq

/-- Model of the io.BytesIO buffer the generator writes the archive into. -/
structure ByteBuf where
  buf : List Nat
  deriving Repr, DecidableEq

/-- Current contents of the buffer (io.BytesIO.getvalue). -/
def ByteBuf.getvalue (b : ByteBuf) : List Nat :=
  b.buf

/-- The call bytes_io.empty() in submissions_zip_generator: io.BytesIO exposes
read, write, getvalue, seek, truncate and the other io methods, but no
attribute named empty, so attribute lookup raises AttributeError. -/
def ByteBuf.emptyCall (_ : ByteBuf) : Except PyExc ByteBuf :=
  Except.error PyExc.attributeError

/-- The end-of-central-directory record that closing a zipfile.ZipFile with no
entries appends: signature 0x50 0x4B 0x05 0x06 followed by eighteen zero bytes
(disk numbers, entry counts, directory size and offset, comment length). -/
def emptyZipEocd : List Nat :=
  [0x50, 0x4B, 0x05, 0x06] ++ List.replicate 18 0

/-- The loop of submissions_zip_generator (sga/backend/files.py) from a given
buffer state.  The zip library is abstracted by `writestr`, the bytes one
zip_file.writestr call appends to the buffer for a document, and `close`, the
bytes the ZipFile context exit appends (central directory and end record); the
AttributeError behaviour below holds for every such abstraction.  Per
submission the loop appends the entry bytes, yields bytes_io.getvalue(), and
then calls bytes_io.empty(), which raises; the with-statement lets the
exception propagate, so the generator ends after the chunks collected so far.
The result is the list of yielded chunks together with the exception that
terminated the generator, if any; an exhausted submission list closes the
archive into the buffer and yields it once more. -/
def submissions_zip_generator_from (writestr : SubmissionDoc → List Nat)
    (close : List Nat) (b : ByteBuf) :
    List SubmissionDoc → List (List Nat) × Option PyExc
  | [] => ([ByteBuf.getvalue ⟨b.buf ++ close⟩], none)
  | s :: rest =>
      let b1 : ByteBuf := ⟨b.buf ++ writestr s⟩
      let chunk := b1.getvalue
      match b1.emptyCall with
      | Except.error e => ([chunk], some e)
      | Except.ok b2 =>
          let next := submissions_zip_generator_from writestr close b2 rest
          (chunk :: next.1, next.2)

/-- Source submissions_zip_generator (sga/backend/files.py): run the loop on a
fresh BytesIO buffer. -/
def submissions_zip_generator (writestr : SubmissionDoc → List Nat) (close : List Nat)
    (submissions : List SubmissionDoc) : List (List Nat) × Option PyExc :=
  submissions_zip_generator_from writestr close ⟨[]⟩ submissions

/- ### Concrete states used to evaluate the theorems -/

/-- A course in which user 1 is simultaneously an administrator and a student,
and nobody is a grader. -/
def c5course : Course :=
  ⟨"cs101", [1], [], [1]⟩

/-- An assignment state for the grader-scoping counters: user 7 is a grader
with an empty roster, and the single submission of student 3 on assignment 10
was graded by user 7. -/
def c8state : AssignmentState :=
  ⟨10, 1, [3], [7], [⟨3, 10, 1, some 7, true, true⟩]⟩

/-- The grader row of user 7 in course 1 with an empty roster. -/
def c8grader : GraderRow :=
  ⟨7, 1, 10, []⟩

/-- An assignment state for the counter-consistency theorem: students 1, 2, 3,
of whom 3 is also a grader; student 1 has a graded submission and student 2 an
unsubmitted row on assignment 10. -/
def c2state : AssignmentState :=
  ⟨10, 1, [1, 2, 3], [3], [⟨1, 10, 1, some 3, true, true⟩, ⟨2, 10, 1, none, false, false⟩]⟩

/- ### Helper lemmas -/

/-- Substituting a single-character pattern is the pointwise character map. -/
theorem reSubChars_eq_map (pat : Char → Bool) (repl : Char) (cs : List Char) :
    reSubChars pat repl cs = cs.map (fun c => if pat c then repl else c) := by
  induction cs with
  | nil => rfl
  | cons c cs ih => simp [reSubChars, ih]

/-- Two duplicate-free lists, one filtered down to the members of the other it
contains all of, have equal lengths. -/
theorem length_filter_mem_of_subset_nodup {S G : List Nat}
    (hs : S.Nodup) (hg : G.Nodup) (hsub : ∀ g ∈ G, g ∈ S) :
    (S.filter (fun u => decide (u ∈ G))).length = G.length := by
  have hnod : (S.filter (fun u => decide (u ∈ G))).Nodup := hs.filter _
  have hperm : (S.filter (fun u => decide (u ∈ G))).Perm G := by
    rw [List.perm_ext_iff_of_nodup hnod hg]
    intro a
    simp only [List.mem_filter, decide_eq_true_eq]
    exact ⟨fun h => h.2, fun h => ⟨hsub a h, h⟩⟩
  exact hperm.length_eq

/- ### Claim theorems -/

/-- C1: evaluation of the zip-export generator at its failing input.  For a
one-submission sequence the generator yields the single chunk written for that
entry and then terminates with AttributeError, because bytes_io.empty() is not
an attribute of io.BytesIO; this holds for every possible behaviour of the zip
writer, so for nonempty inputs the claimed complete N-entry archive is never
produced.  For the empty sequence the generator does yield exactly one final
chunk, the archive close bytes, which for an empty zipfile.ZipFile are the
22-byte end-of-central-directory record of a valid empty archive. -/
theorem sga_c1_zip_generator_crash :
    (∀ (writestr : SubmissionDoc → List Nat) (close : List Nat),
      submissions_zip_generator writestr close [⟨"a.pdf", [0x78]⟩]
        = ([writestr ⟨"a.pdf", [0x78]⟩], some PyExc.attributeError)) ∧
    (∀ (writestr : SubmissionDoc → List Nat),
      submissions_zip_generator writestr emptyZipEocd [] = ([emptyZipEocd], none)) := by
  constructor
  · intro writestr close
    simp [submissions_zip_generator, submissions_zip_generator_from,
      ByteBuf.emptyCall, ByteBuf.getvalue]
  · intro writestr
    simp [submissions_zip_generator, submissions_zip_generator_from, ByteBuf.getvalue]

/-- C2: for every assignment state in which every grader of the course also has
a Student row, the relation sets are duplicate-free, and a Submission row
exists for every eligible student of the assignment, the graded count plus the
not-graded count plus the not-submitted count equals the number of students in
scope, namely the students of the course that are not graders. -/
theorem sga_c2_counter_consistency (st : AssignmentState)
    (hsub : ∀ g ∈ st.courseGraders, g ∈ st.courseStudents)
    (hs : st.courseStudents.Nodup) (hg : st.courseGraders.Nodup)
    (_hmat : ∀ u ∈ st.courseStudents, u ∉ st.courseGraders →
      ∃ r ∈ st.submissions, r.student = u ∧ r.assignment = st.assignmentId) :
    (Assignment.graded_submissions_count st : Int)
      + (Assignment.not_graded_submissions_count st : Int)
      + Assignment.not_submitted_submissions_count st
      = ((st.courseStudents.filter (fun u => !decide (u ∈ st.courseGraders))).length : Int) := by
  have h1 : st.courseStudents.length
      = (st.courseStudents.filter (fun u => decide (u ∈ st.courseGraders))).length
        + (st.courseStudents.filter (fun u => !decide (u ∈ st.courseGraders))).length :=
    List.length_eq_length_filter_add _
  have h2 := length_filter_mem_of_subset_nodup hs hg hsub
  rw [h2] at h1
  simp only [Assignment.not_submitted_submissions_count]
  omega

/-- C2 witness: the counter identity evaluated on the concrete state c2state
(three student rows, one of them a grader, two submission rows). -/
theorem sga_c2_witness :
    (Assignment.graded_submissions_count c2state : Int)
      + (Assignment.not_graded_submissions_count c2state : Int)
      + Assignment.not_submitted_submissions_count c2state
      = ((c2state.courseStudents.filter (fun u => !decide (u ∈ c2state.courseGraders))).length : Int) :=
  sga_c2_counter_consistency c2state (by decide) (by decide) (by decide) (by decide)

/-- C3: for every configured invalid-character predicate, submission context
and original filename, each upload path builder returns exactly the key
course_id/role-uploads/assignment_id/username-assignment_name+extension with
the replacement of invalid characters by an underscore applied to the entire
computed path, and the same inputs always yield the same key. -/
theorem sga_c3_upload_path_builder (illegal : Char → Bool) (inst inst2 : UploadInstance)
    (filename filename2 : String) :
    student_submission_file_path illegal inst filename
      = String.mk ((inst.assignment_course_edx_id ++ "/student-uploads/"
          ++ inst.assignment_edx_id ++ "/" ++ inst.student_username ++ "-"
          ++ inst.assignment_name ++ (splitext filename).2).toList.map
            (fun c => if illegal c then '_' else c)) ∧
    grader_submission_file_path illegal inst filename
      = String.mk ((inst.assignment_course_edx_id ++ "/grader-uploads/"
          ++ inst.assignment_edx_id ++ "/" ++ inst.student_username ++ "-"
          ++ inst.assignment_name ++ (splitext filename).2).toList.map
            (fun c => if illegal c then '_' else c)) ∧
    (inst = inst2 → filename = filename2 →
      student_submission_file_path illegal inst filename
        = student_submission_file_path illegal inst2 filename2) := by
  refine ⟨?_, ?_, ?_⟩
  · simp [student_submission_file_path, convert_illegal_S3_chars, reSubChars_eq_map]
  · simp [grader_submission_file_path, convert_illegal_S3_chars, reSubChars_eq_map]
  · intro h1 h2
    rw [h1, h2]

/-- C3 witness: the builders evaluated on the spec scenario, student alice
uploading essay.pdf for assignment hw1 named Homework 1 in course cs101, with a
sample invalid-character predicate. -/
theorem sga_c3_witness :
    student_submission_file_path (fun c => c == ':') ⟨"cs101", "hw1", "Homework 1", "alice"⟩ "essay.pdf"
      = String.mk (("cs101" ++ "/student-uploads/" ++ "hw1" ++ "/" ++ "alice" ++ "-"
          ++ "Homework 1" ++ (splitext "essay.pdf").2).toList.map
            (fun c => if c == ':' then '_' else c)) ∧
    student_submission_file_path (fun c => c == ':') ⟨"cs101", "hw1", "Homework 1", "alice"⟩ "essay.pdf"
      = student_submission_file_path (fun c => c == ':') ⟨"cs101", "hw1", "Homework 1", "alice"⟩ "essay.pdf" :=
  ⟨(sga_c3_upload_path_builder (fun c => c == ':') ⟨"cs101", "hw1", "Homework 1", "alice"⟩
      ⟨"cs101", "hw1", "Homework 1", "alice"⟩ "essay.pdf" "essay.pdf").1,
   (sga_c3_upload_path_builder (fun c => c == ':') ⟨"cs101", "hw1", "Homework 1", "alice"⟩
      ⟨"cs101", "hw1", "Homework 1", "alice"⟩ "essay.pdf" "essay.pdf").2.2 rfl rfl⟩

/-- C4 counterexample: a submission whose grade column holds 0, a present
value, renders as the Not Graded literal and not as the claimed formatted
string, because Python truthiness treats 0 like None. -/
theorem sga_c4_counterexample :
    (subWithGrade (some 0)).grade_display = "(Not Graded)" ∧
    (subWithGrade (some 0)).grade_display ≠ "0/100 (0%)" := by
  constructor
  · rfl
  · decide

/-- C4 amended: grade_display returns the formatted grade string exactly for a
truthy grade, that is a non-null and nonzero grade; a null grade and the
present grade 0 both render as the Not Graded literal. -/
theorem sga_c4_grade_display (s : Submission) (g : Int) :
    (s.grade = some g → g ≠ 0 →
      s.grade_display = toString g ++ "/100 (" ++ toString g ++ "%)") ∧
    ((s.grade = none ∨ s.grade = some 0) → s.grade_display = "(Not Graded)") := by
  constructor
  · intro hg hz
    simp [Submission.grade_display, pyTruthyInt, hg, hz]
  · rintro (hg | hg) <;> simp [Submission.grade_display, pyTruthyInt, hg]

/-- C4 witness: the spec scenario, a submission graded 85 renders as
85/100 (85%). -/
theorem sga_c4_witness :
    (subWithGrade (some 85)).grade_display = "85/100 (85%)" :=
  ((sga_c4_grade_display (subWithGrade (some 85)) 85).1 rfl (by decide)).trans (by decide)

/-- C5 counterexample: in the course where user 1 is both an administrator and
a student and not a grader, the student-membership predicate has_student is
true, not false as the claim states for an admin-and-student user. -/
theorem sga_c5_counterexample :
    (c5course.has_admin 1 = true ∧ c5course.has_grader 1 = false) ∧
    c5course.has_student 1 = true ∧ ¬(c5course.has_student 1 = false) := by
  decide

/-- C5 amended: role resolution checks admin membership first, so a user who
is both admin and student resolves to admin; grader-membership does take
priority over student-membership inside has_student, whose value is exactly
membership in the students set minus the graders set; but admin-membership
does not falsify has_student, which stays true for an admin who is a student
and not a grader. -/
theorem sga_c5_role_precedence (c : Course) (u : Nat) :
    (c.has_admin u = true → get_role c u = Role.admin) ∧
    (c.has_grader u = true → c.has_student u = false) ∧
    (c.has_student u = (c.students.contains u && !(c.graders.contains u))) ∧
    (c.has_admin u = true → c.students.contains u = true → c.has_grader u = false →
      c.has_student u = true) := by
  refine ⟨?_, ?_, ?_, ?_⟩
  · intro h
    simp [get_role, h]
  · intro h
    simp [Course.has_student, h]
  · rfl
  · intro _ h1 h2
    have h1m : u ∈ c.students := by simpa using h1
    have h2m : u ∉ c.graders := by simpa [Course.has_grader] using h2
    simp [Course.has_student, Course.has_grader, h1m, h2m]

/-- C5 witness: in c5course user 1 resolves to the admin role while
has_student is still true. -/
theorem sga_c5_witness :
    get_role c5course 1 = Role.admin ∧ c5course.has_student 1 = true :=
  ⟨(sga_c5_role_precedence c5course 1).1 (by decide),
   (sga_c5_role_precedence c5course 1).2.2.2 (by decide) (by decide) (by decide)⟩

/-- C6: the admin unsubmit operation forces the submitted and graded flags to
false and leaves every other column of the submission unchanged: grade,
feedback, description, both documents, both timestamps, the grading user, and
the identifying foreign keys. -/
theorem sga_c6_unsubmit_frame (s : Submission) :
    (unsubmit_submission_update s).submitted = false ∧
    (unsubmit_submission_update s).graded = false ∧
    (unsubmit_submission_update s).grade = s.grade ∧
    (unsubmit_submission_update s).feedback = s.feedback ∧
    (unsubmit_submission_update s).description = s.description ∧
    (unsubmit_submission_update s).student_document = s.student_document ∧
    (unsubmit_submission_update s).grader_document = s.grader_document ∧
    (unsubmit_submission_update s).submitted_at = s.submitted_at ∧
    (unsubmit_submission_update s).graded_at = s.graded_at ∧
    (unsubmit_submission_update s).graded_by = s.graded_by ∧
    (unsubmit_submission_update s).assignment = s.assignment ∧
    (unsubmit_submission_update s).student = s.student := by
  simp [unsubmit_submission_update]

/-- C7: every submission state reachable from creation through the student
submit, staff grade and admin unsubmit operations satisfies the flag/timestamp
invariant: graded implies a grading timestamp and a grading user, submitted
implies a submission timestamp. -/
theorem sga_c7_flags_timestamps (s : Submission) (h : SubmissionReachable s) :
    flagsTimestampInvariant s := by
  induction h with
  | created a st =>
      refine ⟨?_, ?_⟩ <;> intro hc <;> simp [submission_create] at hc
  | studentSubmit s doc desc now hr ih =>
      obtain ⟨ihg, _⟩ := ih
      refine ⟨?_, ?_⟩
      · intro hgr
        simp only [student_submit_post] at hgr ⊢
        exact ihg hgr
      · intro _
        simp [student_submit_post]
  | staffGrade s g fb gd now u hr ih =>
      obtain ⟨_, ihs⟩ := ih
      refine ⟨?_, ?_⟩
      · intro _
        simp [staff_grade_post]
      · intro hsub
        simp only [staff_grade_post] at hsub ⊢
        exact ihs hsub
  | adminUnsubmit s hr ih =>
      refine ⟨?_, ?_⟩ <;> intro hc <;> simp [unsubmit_submission_update] at hc

/-- C7 witness: the invariant holds at the concrete reachable state obtained by
creating a submission and then submitting a student document at time 7. -/
theorem sga_c7_witness :
    flagsTimestampInvariant (student_submit_post (submission_create 1 2) (some "essay.pdf") none 7) :=
  sga_c7_flags_timestamps _
    (SubmissionReachable.studentSubmit (submission_create 1 2) (some "essay.pdf") none 7
      (SubmissionReachable.created 1 2))

/-- C8 counterexample: in c8state the grader of user 7 has an empty roster, yet
both graded-submissions counters scoped to that grader count the single
submission, which was graded by user 7 but belongs to a student not on the
roster; so the counted set is not restricted to the roster of the grader. -/
theorem sga_c8_counterexample :
    Assignment.graded_submissions_count_by_grader c8state c8grader.user = 1 ∧
    Grader.graded_submissions_count c8grader c8state.submissions = 1 ∧
    (c8state.submissions.filter (fun r => c8grader.students.contains r.student)).length = 0 := by
  decide

/-- C8 amended: the graded-submissions counters scoped to a grader count
exactly the submissions graded by that grader user (on the assignment,
respectively in the course), not the roster; the not-graded counter scoped to
a grader is the one restricted to the roster; and the unscoped graded counter
covers the whole assignment. -/
theorem sga_c8_counter_scoping (st : AssignmentState) (g : GraderRow) :
    Assignment.graded_submissions_count_by_grader st g.user
      = st.submissions.countP (fun r => decide (r.graded_by = some g.user ∧
          r.assignment = st.assignmentId ∧ r.submitted = true ∧ r.graded = true)) ∧
    Grader.graded_submissions_count g st.submissions
      = st.submissions.countP (fun r => decide (r.graded_by = some g.user ∧
          r.course = g.course ∧ r.submitted = true ∧ r.graded = true)) ∧
    Assignment.not_graded_submissions_count_by_grader st g
      = st.submissions.countP (fun r => decide (r.student ∈ g.students ∧
          r.assignment = st.assignmentId ∧ r.submitted = true ∧ r.graded = false)) ∧
    Assignment.graded_submissions_count st
      = st.submissions.countP (fun r => decide (r.assignment = st.assignmentId ∧
          r.submitted = true ∧ r.graded = true)) := by
  refine ⟨?_, ?_, ?_, ?_⟩ <;>
    · first
      | (rw [Assignment.graded_submissions_count_by_grader, ← List.countP_eq_length_filter])
      | (rw [Grader.graded_submissions_count, ← List.countP_eq_length_filter])
      | (rw [Assignment.not_graded_submissions_count_by_grader, ← List.countP_eq_length_filter])
      | (rw [Assignment.graded_submissions_count, ← List.countP_eq_length_filter])
      refine List.countP_congr ?_
      intro r _
      cases hs : r.submitted <;> cases hg : r.graded <;>
        simp [List.elem_eq_mem, hs, hg]

/-- C9: in the submission-handling views, the bare except around the
record-lookup step turns an exception of any kind raised by any lookup into
the Http404 outcome, and the views produce the Http404 outcome exactly when
the lookup step raised; a successful lookup is never turned into Http404. -/
theorem sga_c9_lookup_collapses_to_404
    (gA : Except PyExc AssignmentRec) (gC : AssignmentRec → Except PyExc Submission)
    (gA2 : Except PyExc AssignmentRec) (gS : Except PyExc StudentRec)
    (gC2 : AssignmentRec → StudentRec → Except PyExc Submission) :
    (view_submission_as_student_lookup gA gC = Except.error Http404.mk ↔
      ∃ e, student_view_lookup gA gC = Except.error e) ∧
    (unsubmit_submission_view gA2 gS gC2 = Except.error Http404.mk ↔
      ∃ e, unsubmit_lookup gA2 gS gC2 = Except.error e) := by
  constructor
  · unfold view_submission_as_student_lookup
    cases h : student_view_lookup gA gC <;> simp
  · unfold unsubmit_submission_view
    cases h : unsubmit_lookup gA2 gS gC2 <;> simp

/-- C9 witness: a lookup failing with ValueError, not the missing-record
signal, still produces the Http404 outcome in the student submission view. -/
theorem sga_c9_witness :
    view_submission_as_student_lookup (Except.error PyExc.valueError)
        (fun _ => Except.ok (subWithGrade none)) = Except.error Http404.mk :=
  (sga_c9_lookup_collapses_to_404 (Except.error PyExc.valueError)
      (fun _ => Except.ok (subWithGrade none)) (Except.error PyExc.valueError)
      (Except.error PyExc.doesNotExist)
      (fun _ _ => Except.ok (subWithGrade none))).1.mpr ⟨PyExc.valueError, rfl⟩

/-- C10: a course-scoped lookup through get_or_404_check_course on a record
that exists (the kwargs match exactly one row) but whose course_id differs
from the given course id fails with PermissionDenied, and it returns the
record exactly when the record exists and its course_id equals the given
course id. -/
theorem sga_c10_get_or_404_check_course (records : List CourseRec)
    (kwargsMatch : CourseRec → Bool) (course_id : Nat) (r : CourseRec) :
    (records.filter kwargsMatch = [r] → r.course_id ≠ course_id →
      get_or_404_check_course records kwargsMatch course_id
        = Except.error LookupError.permissionDenied) ∧
    (get_or_404_check_course records kwargsMatch course_id = Except.ok r ↔
      records.filter kwargsMatch = [r] ∧ r.course_id = course_id) := by
  constructor
  · intro hf hne
    simp [get_or_404_check_course, get_object_or_404, hf, hne]
  · unfold get_or_404_check_course get_object_or_404
    rcases hf : records.filter kwargsMatch with _ | ⟨x, _ | ⟨y, t⟩⟩
    · simp
    · constructor
      · intro h
        split at h
        · exact Except.noConfusion h
        · rename_i obj hcond
          have hobj : x = obj := by simpa using hcond
          subst hobj
          split at h
          · exact Except.noConfusion h
          · rename_i hcond2
            injection h with hx
            subst hx
            exact ⟨rfl, by simpa using hcond2⟩
      · rintro ⟨hxr, hcc⟩
        injection hxr with h1 h2
        subst h1
        show (if (x.course_id != course_id) = true then Except.error LookupError.permissionDenied
          else Except.ok x) = Except.ok x
        rw [if_neg (by simp [hcc])]
    · simp

/-- C10 witness: for the single record with pk 5 and course_id 9, the lookup
with course id 3 fails with PermissionDenied and the lookup with course id 9
returns the record. -/
theorem sga_c10_witness :
    get_or_404_check_course [⟨5, 9⟩] (fun _ => true) 3
        = Except.error LookupError.permissionDenied ∧
    get_or_404_check_course [⟨5, 9⟩] (fun _ => true) 9 = Except.ok ⟨5, 9⟩ :=
  ⟨(sga_c10_get_or_404_check_course [⟨5, 9⟩] (fun _ => true) 3 ⟨5, 9⟩).1 (by decide) (by decide),
   (sga_c10_get_or_404_check_course [⟨5, 9⟩] (fun _ => true) 9 ⟨5, 9⟩).2.mpr ⟨by decide, rfl⟩⟩
